import Mathlib

/-!
Shallow embedding of the `wol` crate (Wake-on-LAN tool), `src/lib.rs`.

Strings are modelled as `List Char`, bytes as `Nat` (values kept in
[0,255] by the parsing/overflow checks exactly as in the Rust source).
Rust panics (index out of bounds, `unwrap`/`expect` on `Err`) are
modelled as `none` / a `panic` outcome; Rust `Result` values are
modelled with `Except`.
-/

/-- Rust `std::num::IntErrorKind` (the kinds reachable from
`u8::from_str_radix`). -/
inductive IntErrorKind
  | empty
  | invalidDigit
  | posOverflow
  | negOverflow
deriving DecidableEq

/-- Rust `char::to_digit(16)`: hex digit value of a character, `none`
when the character is not an ASCII hex digit. -/
def hexDigitVal (c : Char) : Option Nat :=
  if '0' ≤ c ∧ c ≤ '9' then some (c.toNat - '0'.toNat)
  else if 'a' ≤ c ∧ c ≤ 'f' then some (c.toNat - 'a'.toNat + 10)
  else if 'A' ≤ c ∧ c ≤ 'F' then some (c.toNat - 'A'.toNat + 10)
  else none

/-- The digit-accumulation loop of `u8::from_str_radix(_, 16)`:
`checked_mul` by 16 then `checked_add` of the digit, overflow of the
`u8` range reported as `posOverflow`. -/
def parseHexDigits : List Char → Nat → Except IntErrorKind Nat
  | [], acc => .ok acc
  | c :: cs, acc =>
    match hexDigitVal c with
    | none => .error .invalidDigit
    | some d =>
      if 255 < acc * 16 then .error .posOverflow
      else if 255 < acc * 16 + d then .error .posOverflow
      else parseHexDigits cs (acc * 16 + d)

/-- Rust `u8::from_str_radix(s, 16)`: an optional leading `+` sign
(`-` is not accepted for an unsigned type and falls through to the
digit loop, failing as an invalid digit), then at least one hex digit. -/
def from_str_radix16 (s : List Char) : Except IntErrorKind Nat :=
  match s with
  | [] => .error .empty
  | c :: rest =>
    let digits := if c = '+' then rest else s
    if digits.isEmpty then .error .empty
    else parseHexDigits digits 0

/-- Rust `str::split(':')`: splitting on every colon, keeping empty
substrings; the empty string yields one empty token. -/
def splitCols : List Char → List (List Char)
  | [] => [[]]
  | c :: cs =>
    if c = ':' then [] :: splitCols cs
    else
      match splitCols cs with
      | t :: ts => (c :: t) :: ts
      | [] => [[c]]

/-- The crate's `ParseError`: `Number` wraps the underlying
`ParseIntError` (modelled by its kind), `Length` reports a token count
different from 6. -/
inductive ParseError
  | Number (k : IntErrorKind)
  | Length
deriving DecidableEq

/-- Rust `iterator.collect::<Result<Vec<u8>, _>>()`: left-to-right,
stopping at the first token that fails to parse. -/
def collectTokens : List (List Char) → Except IntErrorKind (List Nat)
  | [] => .ok []
  | t :: ts =>
    match from_str_radix16 t with
    | .error e => .error e
    | .ok b =>
      match collectTokens ts with
      | .error e => .error e
      | .ok v => .ok (b :: v)

/-- `wol::parse_mac`: split on `:`, parse every token as a base-16 u8
(first failure wins, wrapped in `ParseError::Number`), then require
exactly 6 bytes (`ParseError::Length` otherwise). -/
def parse_mac (mac : List Char) : Except ParseError (List Nat) :=
  match collectTokens (splitCols mac) with
  | .error e => .error (.Number e)
  | .ok v => if v.length = 6 then .ok v else .error .Length

/-- `true` exactly when the token parses as a hex byte (used to state
"every token is a valid hexadecimal byte" decidably). -/
def tokenOk (t : List Char) : Bool :=
  match from_str_radix16 t with
  | .ok _ => true
  | .error _ => false

/-- `wol::create_payload`: a 102-byte buffer of `0xFF`, then for
`x in 1..17`, `y in 0..6`, `buf[x*6+y] = mac[y]`. The read `mac[y]`
panics in Rust when `y` is out of bounds; the panic is modelled as
`none`. `blockWrite mac buf x` is the inner loop `for y in 0..6`. -/
def blockWrite (mac : List Nat) (buf : List Nat) (x : Nat) : Option (List Nat) :=
  (List.range 6).foldlM
    (fun b y => (mac.get? y).map fun v => b.set (x * 6 + y) v)
    buf

/-- `wol::create_payload` continued: the outer loop `for x in 1..17`
over the inner block writes, starting from the all-`0xFF` buffer. -/
def create_payload (mac : List Nat) : Option (List Nat) :=
  (List.range' 1 16).foldlM (blockWrite mac) (List.replicate (17 * 6) 0xFF)

/-- An IP address: `v4` carries the four octets of `Ipv4Addr::new`,
`v6` carries the eight 16-bit segments of `Ipv6Addr::new` (Rust's
`Ipv6Addr::new` takes eight `u16` segment arguments). -/
inductive IpAddr
  | v4 (a b c d : Nat)
  | v6 (s1 s2 s3 s4 s5 s6 s7 s8 : Nat)
deriving DecidableEq, BEq

/-- A socket operation attempted by the send path, in order. -/
inductive NetOp
  | bind (addr : IpAddr) (port : Nat)
  | setBroadcast (b : Bool)
  | connect (addr : IpAddr) (port : Nat)
  | send (payload : List Nat)
deriving DecidableEq

/-- The OS-level environment: which socket operation fails. The code
itself is deterministic given these outcomes. -/
structure NetEnv where
  bindFails : Bool
  broadcastFails : Bool
  connectFails : Bool
  sendFails : Bool
deriving DecidableEq

/-- The environment in which every socket operation succeeds. -/
def allOk : NetEnv := ⟨false, false, false, false⟩

/-- How a send entry point terminates: `ok`/`err` are the two values of
its Rust return type `Result<(), &'static str>`; `panic` is an
unhandled abort (from `expect`/`unwrap` or an out-of-bounds index). -/
inductive RunResult
  | ok
  | err (msg : String)
  | panic (msg : String)
deriving DecidableEq

/-- `true` exactly on the `err` value, i.e. when a recoverable error
value is returned to the caller. -/
def RunResult.isErr : RunResult → Bool
  | .err _ => true
  | _ => false

/-- Outcome of `wol::create_socket`: `ok` a socket, `ioErr` the
`io::Error` of `set_broadcast` propagated by `?`, `panicked` the
`unwrap` on a failed `bind`. -/
inductive SockResult
  | ok
  | ioErr
  | panicked (msg : String)
deriving DecidableEq

/-- `wol::create_socket`: `UdpSocket::bind(address).unwrap()` (panics
when bind fails), then `socket.set_broadcast(true)?` (returns the
io::Error when that fails). Returns the trace of attempted operations
and the outcome. -/
def create_socket (env : NetEnv) (addr : IpAddr) (port : Nat) :
    List NetOp × SockResult :=
  if env.bindFails then
    ([.bind addr port], .panicked "called Result::unwrap on an Err value")
  else if env.broadcastFails then
    ([.bind addr port, .setBroadcast true], .ioErr)
  else
    ([.bind addr port, .setBroadcast true], .ok)

/-- `wol::send_magic_packet_v4`: build the payload (panicking on a
short MAC), `create_socket((0.0.0.0, 0)).expect(...)`,
`connect((255.255.255.255, 0)).expect(...)`, `send(&buf).expect(...)`,
then `Ok(())`. -/
def send_magic_packet_v4 (env : NetEnv) (mac : List Nat) :
    List NetOp × RunResult :=
  match create_payload mac with
  | none => ([], .panic "index out of bounds")
  | some buf =>
    let s := create_socket env (.v4 0 0 0 0) 0
    match s.2 with
    | .panicked m => (s.1, .panic m)
    | .ioErr => (s.1, .panic "Could not create socket.")
    | .ok =>
      if env.connectFails then
        (s.1 ++ [.connect (.v4 255 255 255 255) 0],
         .panic "Could not create connection.")
      else if env.sendFails then
        (s.1 ++ [.connect (.v4 255 255 255 255) 0, .send buf],
         .panic "Could not send packet.")
      else
        (s.1 ++ [.connect (.v4 255 255 255 255) 0, .send buf], .ok)

/-- `wol::send_magic_packet_v6`: build the payload, bind to
`Ipv6Addr::new(0,0,0,0,0,0,0,0)` (`::`), connect to
`Ipv6Addr::new(0xFF, 0x00, 0x00, 0x00, 0x00, 0x00, 0x00, 0x02)` —
eight `u16` segments, i.e. the address `ff::2` — then send. -/
def send_magic_packet_v6 (env : NetEnv) (mac : List Nat) :
    List NetOp × RunResult :=
  match create_payload mac with
  | none => ([], .panic "index out of bounds")
  | some buf =>
    let s := create_socket env (.v6 0 0 0 0 0 0 0 0) 0
    match s.2 with
    | .panicked m => (s.1, .panic m)
    | .ioErr => (s.1, .panic "Could not create socket.")
    | .ok =>
      if env.connectFails then
        (s.1 ++ [.connect (.v6 0xFF 0 0 0 0 0 0 0x02) 0],
         .panic "Could not create connection.")
      else if env.sendFails then
        (s.1 ++ [.connect (.v6 0xFF 0 0 0 0 0 0 0x02) 0, .send buf],
         .panic "Could not send packet.")
      else
        (s.1 ++ [.connect (.v6 0xFF 0 0 0 0 0 0 0x02) 0, .send buf], .ok)

/-- The magic-packet buffer produced from the 6 MAC bytes
`a b c d e f`: the 6-byte `0xFF` header followed by 16 copies of the
MAC. -/
def payloadSix (a b c d e f : Nat) : List Nat :=
  List.replicate 6 255 ++ (List.replicate 16 [a, b, c, d, e, f]).flatten

/-- Intermediate buffer of `create_payload` after the blocks
`1, ..., j` have been written: the `0xFF` header, `j` copies of the
MAC, and the remaining untouched `0xFF` bytes. -/
def cpBuf (a b c d e f : Nat) (j : Nat) : List Nat :=
  List.replicate 6 255 ++ (List.replicate j [a, b, c, d, e, f]).flatten ++
    List.replicate (96 - 6 * j) 255

theorem foldlM_step {α β : Type} (f : β → α → Option β) (b b' : β) (x : α) (xs : List α)
    (h : f b x = some b') : List.foldlM f b (x :: xs) = List.foldlM f b' xs := by
  show f b x >>= (fun s => List.foldlM f s xs) = _
  rw [h]
  rfl

theorem cpStep1 (a b c d e f : Nat) :
    blockWrite [a, b, c, d, e, f] (cpBuf a b c d e f 0) 1 = some (cpBuf a b c d e f 1) := rfl

theorem cpStep2 (a b c d e f : Nat) :
    blockWrite [a, b, c, d, e, f] (cpBuf a b c d e f 1) 2 = some (cpBuf a b c d e f 2) := rfl

theorem cpStep3 (a b c d e f : Nat) :
    blockWrite [a, b, c, d, e, f] (cpBuf a b c d e f 2) 3 = some (cpBuf a b c d e f 3) := rfl

theorem cpStep4 (a b c d e f : Nat) :
    blockWrite [a, b, c, d, e, f] (cpBuf a b c d e f 3) 4 = some (cpBuf a b c d e f 4) := rfl

theorem cpStep5 (a b c d e f : Nat) :
    blockWrite [a, b, c, d, e, f] (cpBuf a b c d e f 4) 5 = some (cpBuf a b c d e f 5) := rfl

theorem cpStep6 (a b c d e f : Nat) :
    blockWrite [a, b, c, d, e, f] (cpBuf a b c d e f 5) 6 = some (cpBuf a b c d e f 6) := rfl

theorem cpStep7 (a b c d e f : Nat) :
    blockWrite [a, b, c, d, e, f] (cpBuf a b c d e f 6) 7 = some (cpBuf a b c d e f 7) := rfl

theorem cpStep8 (a b c d e f : Nat) :
    blockWrite [a, b, c, d, e, f] (cpBuf a b c d e f 7) 8 = some (cpBuf a b c d e f 8) := rfl

theorem cpStep9 (a b c d e f : Nat) :
    blockWrite [a, b, c, d, e, f] (cpBuf a b c d e f 8) 9 = some (cpBuf a b c d e f 9) := rfl

theorem cpStep10 (a b c d e f : Nat) :
    blockWrite [a, b, c, d, e, f] (cpBuf a b c d e f 9) 10 = some (cpBuf a b c d e f 10) := rfl

theorem cpStep11 (a b c d e f : Nat) :
    blockWrite [a, b, c, d, e, f] (cpBuf a b c d e f 10) 11 = some (cpBuf a b c d e f 11) := rfl

theorem cpStep12 (a b c d e f : Nat) :
    blockWrite [a, b, c, d, e, f] (cpBuf a b c d e f 11) 12 = some (cpBuf a b c d e f 12) := rfl

theorem cpStep13 (a b c d e f : Nat) :
    blockWrite [a, b, c, d, e, f] (cpBuf a b c d e f 12) 13 = some (cpBuf a b c d e f 13) := rfl

theorem cpStep14 (a b c d e f : Nat) :
    blockWrite [a, b, c, d, e, f] (cpBuf a b c d e f 13) 14 = some (cpBuf a b c d e f 14) := rfl

theorem cpStep15 (a b c d e f : Nat) :
    blockWrite [a, b, c, d, e, f] (cpBuf a b c d e f 14) 15 = some (cpBuf a b c d e f 15) := rfl

theorem cpStep16 (a b c d e f : Nat) :
    blockWrite [a, b, c, d, e, f] (cpBuf a b c d e f 15) 16 = some (cpBuf a b c d e f 16) := rfl

theorem create_payload_six (a b c d e f : Nat) :
    create_payload [a, b, c, d, e, f] = some (payloadSix a b c d e f) :=
  (rfl : create_payload [a, b, c, d, e, f] = List.foldlM (blockWrite [a, b, c, d, e, f]) (cpBuf a b c d e f 0) [1, 2, 3, 4, 5, 6, 7, 8, 9, 10, 11, 12, 13, 14, 15, 16])
    |>.trans (foldlM_step (blockWrite [a, b, c, d, e, f]) (cpBuf a b c d e f 0) (cpBuf a b c d e f 1) 1 [2, 3, 4, 5, 6, 7, 8, 9, 10, 11, 12, 13, 14, 15, 16] (cpStep1 a b c d e f))
    |>.trans (foldlM_step (blockWrite [a, b, c, d, e, f]) (cpBuf a b c d e f 1) (cpBuf a b c d e f 2) 2 [3, 4, 5, 6, 7, 8, 9, 10, 11, 12, 13, 14, 15, 16] (cpStep2 a b c d e f))
    |>.trans (foldlM_step (blockWrite [a, b, c, d, e, f]) (cpBuf a b c d e f 2) (cpBuf a b c d e f 3) 3 [4, 5, 6, 7, 8, 9, 10, 11, 12, 13, 14, 15, 16] (cpStep3 a b c d e f))
    |>.trans (foldlM_step (blockWrite [a, b, c, d, e, f]) (cpBuf a b c d e f 3) (cpBuf a b c d e f 4) 4 [5, 6, 7, 8, 9, 10, 11, 12, 13, 14, 15, 16] (cpStep4 a b c d e f))
    |>.trans (foldlM_step (blockWrite [a, b, c, d, e, f]) (cpBuf a b c d e f 4) (cpBuf a b c d e f 5) 5 [6, 7, 8, 9, 10, 11, 12, 13, 14, 15, 16] (cpStep5 a b c d e f))
    |>.trans (foldlM_step (blockWrite [a, b, c, d, e, f]) (cpBuf a b c d e f 5) (cpBuf a b c d e f 6) 6 [7, 8, 9, 10, 11, 12, 13, 14, 15, 16] (cpStep6 a b c d e f))
    |>.trans (foldlM_step (blockWrite [a, b, c, d, e, f]) (cpBuf a b c d e f 6) (cpBuf a b c d e f 7) 7 [8, 9, 10, 11, 12, 13, 14, 15, 16] (cpStep7 a b c d e f))
    |>.trans (foldlM_step (blockWrite [a, b, c, d, e, f]) (cpBuf a b c d e f 7) (cpBuf a b c d e f 8) 8 [9, 10, 11, 12, 13, 14, 15, 16] (cpStep8 a b c d e f))
    |>.trans (foldlM_step (blockWrite [a, b, c, d, e, f]) (cpBuf a b c d e f 8) (cpBuf a b c d e f 9) 9 [10, 11, 12, 13, 14, 15, 16] (cpStep9 a b c d e f))
    |>.trans (foldlM_step (blockWrite [a, b, c, d, e, f]) (cpBuf a b c d e f 9) (cpBuf a b c d e f 10) 10 [11, 12, 13, 14, 15, 16] (cpStep10 a b c d e f))
    |>.trans (foldlM_step (blockWrite [a, b, c, d, e, f]) (cpBuf a b c d e f 10) (cpBuf a b c d e f 11) 11 [12, 13, 14, 15, 16] (cpStep11 a b c d e f))
    |>.trans (foldlM_step (blockWrite [a, b, c, d, e, f]) (cpBuf a b c d e f 11) (cpBuf a b c d e f 12) 12 [13, 14, 15, 16] (cpStep12 a b c d e f))
    |>.trans (foldlM_step (blockWrite [a, b, c, d, e, f]) (cpBuf a b c d e f 12) (cpBuf a b c d e f 13) 13 [14, 15, 16] (cpStep13 a b c d e f))
    |>.trans (foldlM_step (blockWrite [a, b, c, d, e, f]) (cpBuf a b c d e f 13) (cpBuf a b c d e f 14) 14 [15, 16] (cpStep14 a b c d e f))
    |>.trans (foldlM_step (blockWrite [a, b, c, d, e, f]) (cpBuf a b c d e f 14) (cpBuf a b c d e f 15) 15 [16] (cpStep15 a b c d e f))
    |>.trans (foldlM_step (blockWrite [a, b, c, d, e, f]) (cpBuf a b c d e f 15) (cpBuf a b c d e f 16) 16 [] (cpStep16 a b c d e f))
    |>.trans (rfl : List.foldlM (blockWrite [a, b, c, d, e, f]) (cpBuf a b c d e f 16) [] = some (payloadSix a b c d e f))

theorem collectTokens_ok_length (ts : List (List Char)) :
    ∀ v, collectTokens ts = .ok v → v.length = ts.length := by
  induction ts with
  | nil =>
    intro v hv
    simp only [collectTokens] at hv
    cases hv
    rfl
  | cons t ts ih =>
    intro v hv
    cases hfr : from_str_radix16 t with
    | error e => simp [collectTokens, hfr] at hv
    | ok b =>
      cases hct : collectTokens ts with
      | error e => simp [collectTokens, hfr, hct] at hv
      | ok w =>
        simp only [collectTokens, hfr, hct] at hv
        cases hv
        simp [ih w hct]

theorem collectTokens_ok_iff (ts : List (List Char)) :
    (∃ v, collectTokens ts = .ok v) ↔ ∀ t ∈ ts, tokenOk t = true := by
  induction ts with
  | nil => simp [collectTokens]
  | cons t ts ih =>
    constructor
    · rintro ⟨v, hv⟩
      cases hfr : from_str_radix16 t with
      | error e => simp [collectTokens, hfr] at hv
      | ok b =>
        cases hct : collectTokens ts with
        | error e => simp [collectTokens, hfr, hct] at hv
        | ok w =>
          intro x hx
          rcases List.mem_cons.mp hx with rfl | hx
          · simp [tokenOk, hfr]
          · exact (ih.mp ⟨w, hct⟩) x hx
    · intro hall
      have ht : tokenOk t = true := hall t (List.mem_cons_self t ts)
      cases hfr : from_str_radix16 t with
      | error e => simp [tokenOk, hfr] at ht
      | ok b =>
        obtain ⟨w, hw⟩ := ih.mpr (fun x hx => hall x (List.mem_cons_of_mem t hx))
        exact ⟨b :: w, by simp [collectTokens, hfr, hw]⟩

theorem collectTokens_err (ts : List (List Char))
    (h : ∃ t ∈ ts, tokenOk t = false) : ∃ e, collectTokens ts = .error e := by
  cases hct : collectTokens ts with
  | error e => exact ⟨e, rfl⟩
  | ok v =>
    exfalso
    obtain ⟨t, ht, htok⟩ := h
    have := (collectTokens_ok_iff ts).mp ⟨v, hct⟩ t ht
    rw [htok] at this
    cases this

/-- Claim C1: for every 6-byte sequence `mac`, `create_payload mac`
succeeds with a buffer of length exactly 102 whose first 6 bytes are
all `0xFF` and whose bytes `[6*i, 6*i+6)` equal `mac` exactly for every
block index `i` in `[1,17)`. -/
theorem create_payload_structure (mac : List Nat) (h : mac.length = 6) :
    ∃ buf, create_payload mac = some buf ∧ buf.length = 102 ∧
      (∀ j, j < 6 → buf.get? j = some 0xFF) ∧
      (∀ i y, 1 ≤ i → i < 17 → y < 6 → buf.get? (6 * i + y) = mac.get? y) := by
  rcases mac with _ | ⟨a, _ | ⟨b, _ | ⟨c, _ | ⟨d, _ | ⟨e, _ | ⟨f, _ | ⟨g, t⟩⟩⟩⟩⟩⟩⟩ <;>
    simp only [List.length_cons, List.length_nil] at h <;> try omega
  refine ⟨payloadSix a b c d e f, create_payload_six a b c d e f, rfl, ?_, ?_⟩
  · intro j hj
    interval_cases j <;> rfl
  · intro i y h1 h2 hy
    interval_cases i <;> interval_cases y <;> rfl

/-- Witness for C1 at the concrete MAC `[0, 1, 2, 3, 4, 5]`. -/
theorem create_payload_structure_witness :
    ([0, 1, 2, 3, 4, 5] : List Nat).length = 6 ∧
    ∃ buf, create_payload [0, 1, 2, 3, 4, 5] = some buf ∧ buf.length = 102 ∧
      (∀ j, j < 6 → buf.get? j = some 0xFF) ∧
      (∀ i y, 1 ≤ i → i < 17 → y < 6 →
        buf.get? (6 * i + y) = ([0, 1, 2, 3, 4, 5] : List Nat).get? y) :=
  ⟨rfl, create_payload_structure [0, 1, 2, 3, 4, 5] rfl⟩

/-- Claim C5: `parse_mac` returns a 6-byte sequence exactly when
splitting the input on `:` yields exactly 6 tokens and every token
parses as a valid hexadecimal byte; in particular
`parse_mac "FF:FF:FF:FF:FF:FF" = [255,255,255,255,255,255]` and
`parse_mac "00:00:00:00:00:00" = [0,0,0,0,0,0]`. -/
theorem parse_mac_success_iff :
    (∀ s : List Char,
      (∃ v, parse_mac s = .ok v ∧ v.length = 6) ↔
        ((splitCols s).length = 6 ∧ ∀ t ∈ splitCols s, tokenOk t = true)) ∧
    parse_mac ("FF:FF:FF:FF:FF:FF".toList) = .ok [255, 255, 255, 255, 255, 255] ∧
    parse_mac ("00:00:00:00:00:00".toList) = .ok [0, 0, 0, 0, 0, 0] := by
  refine ⟨?_, rfl, rfl⟩
  intro s
  constructor
  · rintro ⟨v, hv, hlen⟩
    cases hct : collectTokens (splitCols s) with
    | error e => simp [parse_mac, hct] at hv
    | ok w =>
      have hw : w = v := by
        by_cases h6 : w.length = 6
        · simpa [parse_mac, hct, h6] using hv
        · simp [parse_mac, hct, h6] at hv
      refine ⟨?_, (collectTokens_ok_iff _).mp ⟨w, hct⟩⟩
      rw [← collectTokens_ok_length _ _ hct, hw]
      exact hlen
  · rintro ⟨hlen, hall⟩
    obtain ⟨v, hv⟩ := (collectTokens_ok_iff _).mpr hall
    have hvl : v.length = 6 := (collectTokens_ok_length _ _ hv).trans hlen
    exact ⟨v, by simp [parse_mac, hv, hvl], hvl⟩

/-- Claim C6: whenever splitting on `:` produces a token count
different from 6 while every token is a valid hex byte, `parse_mac`
fails with `ParseError.Length`; in particular on `"AA:BB:CC"` and
`"AA:BB:CC:DD:EE:FF:00"`. -/
theorem parse_mac_length_error :
    (∀ s : List Char, (splitCols s).length ≠ 6 →
      (∀ t ∈ splitCols s, tokenOk t = true) →
      parse_mac s = .error .Length) ∧
    parse_mac ("AA:BB:CC".toList) = .error .Length ∧
    parse_mac ("AA:BB:CC:DD:EE:FF:00".toList) = .error .Length := by
  refine ⟨?_, rfl, rfl⟩
  intro s hne hall
  obtain ⟨v, hv⟩ := (collectTokens_ok_iff _).mpr hall
  have hvl : v.length ≠ 6 := by
    rw [collectTokens_ok_length _ _ hv]
    exact hne
  simp [parse_mac, hv, hvl]

/-- Witness for C6 at `"AA:BB:CC"` (3 tokens, all valid hex bytes). -/
theorem parse_mac_length_error_witness :
    (splitCols ("AA:BB:CC".toList)).length ≠ 6 ∧
    (∀ t ∈ splitCols ("AA:BB:CC".toList), tokenOk t = true) ∧
    parse_mac ("AA:BB:CC".toList) = .error .Length :=
  ⟨by decide, by decide, parse_mac_length_error.1 _ (by decide) (by decide)⟩

/-- Claim C7: whenever some token of the input is not a valid
hexadecimal byte, `parse_mac` fails with the `Number` variant carrying
the underlying parse-error kind; in particular
`parse_mac "GG:00:00:00:00:00"` fails with `Number invalidDigit`. -/
theorem parse_mac_number_error :
    (∀ s : List Char, (∃ t ∈ splitCols s, tokenOk t = false) →
      ∃ k, parse_mac s = .error (.Number k)) ∧
    parse_mac ("GG:00:00:00:00:00".toList) = .error (.Number .invalidDigit) := by
  refine ⟨?_, rfl⟩
  intro s h
  obtain ⟨e, he⟩ := collectTokens_err _ h
  exact ⟨e, by simp [parse_mac, he]⟩

/-- Witness for C7 at `"GG:00:00:00:00:00"` (token `GG` is invalid). -/
theorem parse_mac_number_error_witness :
    (∃ t ∈ splitCols ("GG:00:00:00:00:00".toList), tokenOk t = false) ∧
    ∃ k, parse_mac ("GG:00:00:00:00:00".toList) = .error (.Number k) :=
  ⟨by decide, parse_mac_number_error.1 _ (by decide)⟩

/-- Claim C9: the number check takes precedence over the length check:
even when the token count differs from 6, an invalid token makes
`parse_mac` fail with the `Number` variant, not `Length`; in
particular the one-token input `"GG"` yields a `Number` error. -/
theorem parse_mac_number_precedence :
    (∀ s : List Char, (splitCols s).length ≠ 6 →
      (∃ t ∈ splitCols s, tokenOk t = false) →
      ∃ k, parse_mac s = .error (.Number k)) ∧
    parse_mac ("GG".toList) = .error (.Number .invalidDigit) := by
  refine ⟨?_, rfl⟩
  intro s _ h
  obtain ⟨e, he⟩ := collectTokens_err _ h
  exact ⟨e, by simp [parse_mac, he]⟩

/-- Witness for C9 at `"GG"` (1 token, invalid hex). -/
theorem parse_mac_number_precedence_witness :
    (splitCols ("GG".toList)).length ≠ 6 ∧
    (∃ t ∈ splitCols ("GG".toList), tokenOk t = false) ∧
    ∃ k, parse_mac ("GG".toList) = .error (.Number k) :=
  ⟨by decide, by decide, parse_mac_number_precedence.1 _ (by decide) (by decide)⟩

/-- Claim C10: `parse_mac` accepts tokens that are not 1–2 hex digits
as long as they parse as a byte value in `[0,255]`: a 3-digit token
with a leading zero such as `"0FF"`, or a token with a leading `+`
sign, both succeed. -/
theorem parse_mac_liberal_tokens :
    parse_mac ("0FF:00:00:00:00:00".toList) = .ok [255, 0, 0, 0, 0, 0] ∧
    parse_mac ("+FF:00:00:00:00:00".toList) = .ok [255, 0, 0, 0, 0, 0] :=
  ⟨rfl, rfl⟩

/-- Claim C8: with every socket operation succeeding,
`send_magic_packet_v4` binds a UDP socket to the wildcard address
`0.0.0.0` on an ephemeral local port (port 0), enables broadcast on
the socket, and transmits the full 102-byte payload to the limited
broadcast destination `255.255.255.255`. -/
theorem send_v4_broadcast (mac : List Nat) (h : mac.length = 6) :
    ∃ buf, create_payload mac = some buf ∧ buf.length = 102 ∧
      send_magic_packet_v4 allOk mac =
        ([.bind (.v4 0 0 0 0) 0, .setBroadcast true,
          .connect (.v4 255 255 255 255) 0, .send buf], .ok) := by
  rcases mac with _ | ⟨a, _ | ⟨b, _ | ⟨c, _ | ⟨d, _ | ⟨e, _ | ⟨f, _ | ⟨g, t⟩⟩⟩⟩⟩⟩⟩ <;>
    simp only [List.length_cons, List.length_nil] at h <;> try omega
  refine ⟨payloadSix a b c d e f, create_payload_six a b c d e f, rfl, ?_⟩
  simp [send_magic_packet_v4, create_payload_six a b c d e f, create_socket, allOk]

/-- Witness for C8 at the concrete MAC `[0, 1, 2, 3, 4, 5]`. -/
theorem send_v4_broadcast_witness :
    ([0, 1, 2, 3, 4, 5] : List Nat).length = 6 ∧
    ∃ buf, create_payload [0, 1, 2, 3, 4, 5] = some buf ∧ buf.length = 102 ∧
      send_magic_packet_v4 allOk [0, 1, 2, 3, 4, 5] =
        ([.bind (.v4 0 0 0 0) 0, .setBroadcast true,
          .connect (.v4 255 255 255 255) 0, .send buf], .ok) :=
  ⟨rfl, send_v4_broadcast [0, 1, 2, 3, 4, 5] rfl⟩

/-- Claim C2 (the code diverges): the IPv6 send path connects to the
address built by `Ipv6Addr::new(0xFF, 0, 0, 0, 0, 0, 0, 2)`. Since the
eight arguments are 16-bit segments, this is `ff::2` (first segment
`0x00FF`), which differs from `ff00::2` (first segment `0xFF00`). -/
theorem send_v6_destination_is_ff_2 :
    (send_magic_packet_v6 allOk [0, 1, 2, 3, 4, 5]).1.get? 2 =
      some (.connect (.v6 0xFF 0 0 0 0 0 0 0x02) 0) ∧
    ((IpAddr.v6 0xFF 0 0 0 0 0 0 0x02 == IpAddr.v6 0xFF00 0 0 0 0 0 0 0x02) =
      false) :=
  ⟨rfl, rfl⟩

/-- Claim C3 (the code diverges): a failure at any stage — binding the
socket, enabling broadcast, connecting, or sending — makes the send
operations terminate with a panic (unhandled abort), and no recoverable
error value is ever returned to the caller in any environment. -/
theorem send_failures_panic_never_err :
    (send_magic_packet_v4 ⟨true, false, false, false⟩ [0, 1, 2, 3, 4, 5]).2 =
      .panic "called Result::unwrap on an Err value" ∧
    (send_magic_packet_v4 ⟨false, true, false, false⟩ [0, 1, 2, 3, 4, 5]).2 =
      .panic "Could not create socket." ∧
    (send_magic_packet_v4 ⟨false, false, true, false⟩ [0, 1, 2, 3, 4, 5]).2 =
      .panic "Could not create connection." ∧
    (send_magic_packet_v4 ⟨false, false, false, true⟩ [0, 1, 2, 3, 4, 5]).2 =
      .panic "Could not send packet." ∧
    (send_magic_packet_v6 ⟨true, false, false, false⟩ [0, 1, 2, 3, 4, 5]).2 =
      .panic "called Result::unwrap on an Err value" ∧
    (send_magic_packet_v6 ⟨false, false, false, true⟩ [0, 1, 2, 3, 4, 5]).2 =
      .panic "Could not send packet." ∧
    (∀ (env : NetEnv) (mac : List Nat),
      RunResult.isErr (send_magic_packet_v4 env mac).2 = false ∧
      RunResult.isErr (send_magic_packet_v6 env mac).2 = false) := by
  refine ⟨rfl, rfl, rfl, rfl, rfl, rfl, ?_⟩
  intro env mac
  obtain ⟨b1, b2, b3, b4⟩ := env
  constructor <;>
  · cases hcp : create_payload mac with
    | none =>
      simp [send_magic_packet_v4, send_magic_packet_v6, hcp, RunResult.isErr]
    | some buf =>
      cases b1 <;> cases b2 <;> cases b3 <;> cases b4 <;>
        simp [send_magic_packet_v4, send_magic_packet_v6, create_socket, hcp,
          RunResult.isErr]

/-- Claim C4 (the code diverges): on a MAC shorter than 6 bytes the
payload builder panics (out-of-bounds index, modelled as `none`) and
the send path aborts; no `LengthError`-style error value exists on
this path. -/
theorem create_payload_short_mac_panics :
    create_payload [0, 1, 2] = none ∧
    create_payload [] = none ∧
    (send_magic_packet_v4 allOk [0, 1, 2]).2 = .panic "index out of bounds" :=
  ⟨rfl, rfl, rfl⟩

/-- Witness for C5: on `"FF:FF:FF:FF:FF:FF"` the success
characterisation instantiates to 6 tokens that all parse. -/
theorem parse_mac_success_iff_witness :
    (splitCols ("FF:FF:FF:FF:FF:FF".toList)).length = 6 ∧
    ∀ t ∈ splitCols ("FF:FF:FF:FF:FF:FF".toList), tokenOk t = true :=
  (parse_mac_success_iff.1 ("FF:FF:FF:FF:FF:FF".toList)).mp
    ⟨[255, 255, 255, 255, 255, 255], rfl, rfl⟩

/-- Witness for C3's universally quantified part at a concrete
environment and MAC. -/
theorem send_failures_panic_never_err_witness :
    RunResult.isErr (send_magic_packet_v4 allOk [0, 1, 2, 3, 4, 5]).2 = false ∧
    RunResult.isErr (send_magic_packet_v6 allOk [0, 1, 2, 3, 4, 5]).2 = false :=
  send_failures_panic_never_err.2.2.2.2.2.2 allOk [0, 1, 2, 3, 4, 5]
